import Mathlib

/-
Verification of the token-lifecycle manager and request dispatcher of
procedural-rhino-python (src/grasshopper/login.py, class User).

The embedding is a shallow one: Python dynamic values become the inductive
type JVal; the mutable module/class state (the shared class-level header
dict `content_header`, the module-global `_RESPONSE_CACHE`) becomes the
record World, threaded explicitly together with the per-session record
User; the HTTP transport (urllib2.urlopen) becomes an oracle
`net : HttpCall -> NetResult` plus a trace of issued calls recorded in
World; Python exceptions become the error side of Except PyErr, returned
together with the state that was reached when the exception escaped
(Python leaves the mutated objects visible to the caller).

Library functions of the Python 2 runtime used by the source
(base64.b64decode via binascii.a2b_base64, json.loads, json.dumps,
urllib.urlencode) are modelled executably below, following their
documented CPython 2.7 semantics on the ASCII inputs that occur here.
-/

namespace Procedural

/-- A Python/JSON dynamic value: None, bool, int, str, list, dict. -/
inductive JVal where
  | null : JVal
  | bool (b : Bool) : JVal
  | num (n : Int) : JVal
  | str (s : String) : JVal
  | arr (xs : List JVal) : JVal
  | obj (fs : List (String × JVal)) : JVal
deriving Repr

/-- The Python exceptions that the modelled code can raise. -/
inductive PyErr where
  | indexError : PyErr
  | b64Error : PyErr
  | jsonError : PyErr
  | missingExp : PyErr
  | authError : PyErr
  | keyError (k : String) : PyErr
  | typeError : PyErr
  | attributeError : PyErr
deriving Repr, DecidableEq

/-- Python truthiness of a dynamic value. -/
def pyTruthy : JVal → Bool
  | .null => false
  | .bool b => b
  | .num n => n != 0
  | .str s => !s.data.isEmpty
  | .arr xs => !xs.isEmpty
  | .obj fs => !fs.isEmpty

/-- Python `s.split(sep)` for a one-character separator: the empty string
yields one empty field, and separators at the ends yield empty fields. -/
def splitChar (sep : Char) : List Char → List (List Char)
  | [] => [[]]
  | c :: cs =>
    let r := splitChar sep cs
    if c = sep then [] :: r
    else
      match r with
      | [] => [[c]]
      | g :: gs => (c :: g) :: gs

/-- Python `s.split(sep)` packaged on strings. -/
def pySplit (s : String) (sep : Char) : List String :=
  (splitChar sep s.data).map String.mk

/-- Python `s.startswith(pre)`. -/
def pyStartsWith (s pre : String) : Bool :=
  pre.data.isPrefixOf s.data

/-- The Python test `v is None`. -/
def pyIsNone : JVal → Bool
  | .null => true
  | _ => false

/-- Lookup in an association list modelling a Python dict (first match). -/
def dictGet {κ α : Type} [DecidableEq κ] : List (κ × α) → κ → Option α
  | [], _ => none
  | (k, v) :: d, key => if k = key then some v else dictGet d key

/-- `d[key] = val` on an association-list dict: replace in place or append. -/
def dictSet {κ α : Type} [DecidableEq κ] : List (κ × α) → κ → α → List (κ × α)
  | [], key, val => [(key, val)]
  | (k, v) :: d, key, val =>
    if k = key then (key, val) :: d else (k, v) :: dictSet d key val

/-- `d.update(e)` on association-list dicts. -/
def dictUpdate {κ α : Type} [DecidableEq κ] (d e : List (κ × α)) : List (κ × α) :=
  e.foldl (fun acc kv => dictSet acc kv.1 kv.2) d

/-! ### base64 (CPython 2.7 `base64.b64decode` / `binascii.a2b_base64`)

The decoder discards characters outside the standard alphabet, treats a
pad character position-dependently (skipped before quad position 2;
at position 2 it terminates only when the next valid character is another
pad; at position 3 it always terminates), and reports `Incorrect padding`
when the surviving data-character count is not a multiple of four and no
pad terminated the stream. -/

/-- Value of a character in the standard base64 alphabet. -/
def b64val (c : Char) : Option Nat :=
  if 'A' ≤ c ∧ c ≤ 'Z' then some (c.toNat - 65)
  else if 'a' ≤ c ∧ c ≤ 'z' then some (c.toNat - 71)
  else if '0' ≤ c ∧ c ≤ '9' then some (c.toNat + 4)
  else if c = '+' then some 62
  else if c = '/' then some 63
  else none

/-- First character that is in the alphabet or is a pad. -/
def nextB64Valid : List Char → Option Char
  | [] => none
  | c :: cs => if (b64val c).isSome || c = '=' then some c else nextB64Valid cs

/-- Scan of the input: surviving 6-bit values plus whether a pad terminated
the stream; the second argument is the current quad position. -/
def b64scan : List Char → Nat → List Nat × Bool
  | [], _ => ([], false)
  | c :: cs, qp =>
    if c = '=' then
      if qp < 2 then b64scan cs qp
      else if qp = 2 then
        match nextB64Valid cs with
        | some '=' => ([], true)
        | _ => b64scan cs qp
      else ([], true)
    else
      match b64val c with
      | none => b64scan cs qp
      | some v =>
        let r := b64scan cs ((qp + 1) % 4)
        (v :: r.1, r.2)

/-- Byte emission from the surviving 6-bit values. -/
def b64emit : List Nat → List Nat
  | a :: b :: c :: d :: rest =>
    (a * 4 + b / 16) :: ((b % 16) * 16 + c / 4) :: ((c % 4) * 64 + d) :: b64emit rest
  | [a, b] => [a * 4 + b / 16]
  | [a, b, c] => [a * 4 + b / 16, (b % 16) * 16 + c / 4]
  | _ => []

/-- `base64.b64decode`; `none` is binascii.Error (Incorrect padding). -/
def b64decode (s : String) : Option (List Nat) :=
  let r := b64scan s.toList 0
  if !r.2 && r.1.length % 4 != 0 then none
  else some (b64emit r.1)

/-- Decoded payload bytes read back as a (byte) string; the payloads that
occur here are ASCII, as base64 input always is. -/
def bytesToStr (bs : List Nat) : String :=
  String.mk (bs.map Char.ofNat)

/-! ### JSON (`json.loads` / `json.dumps`)

An executable codec for the JSON subset exchanged by the modelled code:
null, booleans, integers, strings with simple escapes, arrays, objects.
An input outside the subset parses to `none`, which the dispatcher turns
into a raw-string envelope exactly as a Python parse failure would. -/

def lbrace : Char := Char.ofNat 123

def rbrace : Char := Char.ofNat 125

def skipWs : List Char → List Char
  | c :: cs =>
    if c = ' ' || c = '\t' || c = '\n' || c = '\r' then skipWs cs else c :: cs
  | [] => []

/-- Match a literal character list prefix, returning the remainder. -/
def matchChars : List Char → List Char → Option (List Char)
  | [], cs => some cs
  | _ :: _, [] => none
  | p :: ps, c :: cs => if c = p then matchChars ps cs else none

/-- Body of a JSON string after the opening quote. -/
def parseStrChars : List Char → Option (List Char × List Char)
  | [] => none
  | c :: rest =>
    if c = '"' then some ([], rest)
    else if c = '\\' then
      match rest with
      | [] => none
      | e :: rest2 =>
        let ec : Option Char :=
          if e = '"' then some '"'
          else if e = '\\' then some '\\'
          else if e = '/' then some '/'
          else if e = 'n' then some '\n'
          else if e = 't' then some '\t'
          else if e = 'r' then some '\r'
          else none
        match ec with
        | none => none
        | some ch =>
          match parseStrChars rest2 with
          | none => none
          | some (s, r) => some (ch :: s, r)
    else
      match parseStrChars rest with
      | none => none
      | some (s, r) => some (c :: s, r)

def digitsToNat (ds : List Char) : Nat :=
  ds.foldl (fun a c => a * 10 + (c.toNat - 48)) 0

def parseNat (cs : List Char) : Option (Nat × List Char) :=
  let p := cs.span Char.isDigit
  if p.1.isEmpty then none else some (digitsToNat p.1, p.2)

mutual

def parseJV : Nat → List Char → Option (JVal × List Char)
  | 0, _ => none
  | Nat.succ f, cs0 =>
    let cs := skipWs cs0
    match matchChars ("null".toList) cs with
    | some rest => some (.null, rest)
    | none =>
    match matchChars ("true".toList) cs with
    | some rest => some (.bool true, rest)
    | none =>
    match matchChars ("false".toList) cs with
    | some rest => some (.bool false, rest)
    | none =>
    match cs with
    | [] => none
    | c :: rest =>
      if c = '"' then
        match parseStrChars rest with
        | some (s, rest2) => some (.str (String.mk s), rest2)
        | none => none
      else if c = '[' then
        match skipWs rest with
        | ']' :: rest2 => some (.arr [], rest2)
        | _ =>
          match parseElems f rest with
          | some (xs, rest2) => some (.arr xs, rest2)
          | none => none
      else if c = lbrace then
        let r2 := skipWs rest
        if r2.head? = some rbrace then some (.obj [], r2.tail)
        else
          match parseFields f rest with
          | some (fs, rest2) => some (.obj fs, rest2)
          | none => none
      else if c = '-' then
        match parseNat rest with
        | some (n, rest2) => some (.num (-(n : Int)), rest2)
        | none => none
      else if c.isDigit then
        match parseNat cs with
        | some (n, rest2) => some (.num (n : Int), rest2)
        | none => none
      else none

def parseElems : Nat → List Char → Option (List JVal × List Char)
  | 0, _ => none
  | Nat.succ f, cs =>
    match parseJV f cs with
    | none => none
    | some (v, rest) =>
      match skipWs rest with
      | ',' :: rest2 =>
        match parseElems f rest2 with
        | some (vs, rest3) => some (v :: vs, rest3)
        | none => none
      | ']' :: rest2 => some ([v], rest2)
      | _ => none

def parseFields : Nat → List Char → Option (List (String × JVal) × List Char)
  | 0, _ => none
  | Nat.succ f, cs =>
    match skipWs cs with
    | '"' :: rest =>
      match parseStrChars rest with
      | none => none
      | some (k, rest2) =>
        match skipWs rest2 with
        | ':' :: rest3 =>
          match parseJV f rest3 with
          | none => none
          | some (v, rest4) =>
            let r := skipWs rest4
            match r with
            | ',' :: rest5 =>
              match parseFields f rest5 with
              | some (fs, rest6) => some ((String.mk k, v) :: fs, rest6)
              | none => none
            | _ =>
              if r.head? = some rbrace then some ([(String.mk k, v)], r.tail)
              else none
        | _ => none
    | _ => none

end

/-- `json.loads`; `none` is a ValueError (the caller catches it). -/
def json_loads (s : String) : Option JVal :=
  match parseJV (2 * s.length + 2) s.toList with
  | some (v, rest) => if (skipWs rest).isEmpty then some v else none
  | none => none

def escapeChar (c : Char) : List Char :=
  if c = '"' then ['\\', '"']
  else if c = '\\' then ['\\', '\\']
  else [c]

def escapeStr (s : String) : String :=
  String.mk (s.toList.foldr (fun c acc => escapeChar c ++ acc) [])

mutual

/-- `json.dumps` with the Python 2 default separators (comma-space,
colon-space). -/
def json_dumps : JVal → String
  | .null => "null"
  | .bool true => "true"
  | .bool false => "false"
  | .num n => toString n
  | .str s => "\"" ++ escapeStr s ++ "\""
  | .arr xs => "[" ++ String.intercalate ", " (dumpsList xs) ++ "]"
  | .obj fs => "\x7b" ++ String.intercalate ", " (dumpsFields fs) ++ "\x7d"

def dumpsList : List JVal → List String
  | [] => []
  | x :: xs => json_dumps x :: dumpsList xs

def dumpsFields : List (String × JVal) → List String
  | [] => []
  | (k, v) :: fs =>
    ("\"" ++ escapeStr k ++ "\": " ++ json_dumps v) :: dumpsFields fs

end

/-- Python `str()` / percent-s formatting of a dynamic value. Only string
tokens reach this in the verified flows; the container cases use the JSON
rendering (Python repr differs in quote style there). -/
def pyStr : JVal → String
  | .str s => s
  | .null => "None"
  | .bool true => "True"
  | .bool false => "False"
  | .num n => toString n
  | v => json_dumps v

/-! ### urllib.urlencode (Python 2) -/

/-- Characters `urllib.quote` never encodes (letters, digits, `_.-`). -/
def alwaysSafe (c : Char) : Bool :=
  c.isAlpha || c.isDigit || c = '_' || c = '.' || c = '-'

def hexDigit (n : Nat) : Char :=
  if n < 10 then Char.ofNat (48 + n) else Char.ofNat (55 + n)

/-- `urllib.quote_plus` with the empty safe set, as `urlencode` calls it:
space becomes a plus, unsafe bytes become percent-escapes. -/
def quote_plus (s : String) : String :=
  String.mk (s.toList.foldr
    (fun c acc =>
      if alwaysSafe c then c :: acc
      else if c = ' ' then '+' :: acc
      else '%' :: hexDigit (c.toNat / 16) :: hexDigit (c.toNat % 16) :: acc)
    [])

/-- `urllib.urlencode` over key-value pairs. -/
def urlencode (ps : List (String × String)) : String :=
  String.intercalate "&" (ps.map (fun p => quote_plus p.1 ++ "=" ++ quote_plus p.2))

/-! ### The session data model (login.py, class User) -/

/-- Per-session state: credentials and the token pair
(`__init__`, lines 62-67). The tokens are dynamic values because the
code stores whatever the response carries (including None). -/
structure User where
  host_url : String
  username : String
  password : String
  _access_token : JVal
  _refresh_token : JVal
deriving Repr

/-- `User.__init__`: tokens start as empty strings. -/
def userInit (username password host : String) : User :=
  ⟨host, username, password, .str "", .str ""⟩

/-- `User.token` property (lines 69-71). -/
def token (u : User) : JVal :=
  u._access_token

/-- `User.clear_tokens` (lines 128-130). -/
def clear_tokens (u : User) : User :=
  { u with _access_token := .str "", _refresh_token := .str "" }

/-- Initial value of the class attribute `User.content_header` (line 60). -/
def content_header : List (String × String) :=
  [("content-type", "application/json")]

/-- One HTTP request as handed to urllib2: url, method, body, headers.
The body is `none` for no data, `.inl` for an encoded JSON byte string,
`.inr` for a raw Python object sent unmodified. -/
structure HttpCall where
  url : String
  method : String
  body : Option (String ⊕ JVal)
  headers : List (String × String)
deriving Repr

/-- Outcome of `urlopen`: a decoded body, an HTTPError (has a status code
and a reason), or a plain URLError (transport failure, no code attribute). -/
inductive NetResult where
  | success (body : String) : NetResult
  | httpError (code : Int) (reason : String) : NetResult
  | urlError (reason : String) : NetResult
deriving Repr

/-- Process-wide mutable state: the shared class-level header dict, the
module-global `_RESPONSE_CACHE`, and the trace of issued HTTP calls. -/
structure World where
  content_header : List (String × String)
  cache : List ((String × String) × JVal)
  trace : List HttpCall
deriving Repr

/-- The state at module load: line 60 and line 37. -/
def initialWorld : World :=
  ⟨content_header, [], []⟩

/-- `User.geturl` (lines 98-101): trim one trailing slash from the host.
(The source indexes `host_url[-1]`, which would raise on an empty host;
every session here carries the nonempty host given at construction.) -/
def geturl (host_url path : String) : String :=
  (if host_url.data.getLast? = some '/' then host_url.dropRight 1 else host_url) ++ path

/-- `User.headers` (lines 120-126). `header = self.content_header` aliases
the class-level dict, so every update below mutates shared state; the
returned dict IS the shared dict. -/
def headers (w : World) (u : User) (extra_headers : Option (List (String × String))) :
    World × List (String × String) :=
  let header := w.content_header
  let header :=
    if pyTruthy (token u) then dictSet header "Authorization" ("JWT " ++ pyStr (token u))
    else header
  let header :=
    match extra_headers with
    | some e => if e.isEmpty then header else dictUpdate header e
    | none => header
  ({ w with content_header := header }, header)

/-- Python `d.get(k, None)`: AttributeError when the receiver is not a
dict (strings, lists, None have no `get`). -/
def pyGet (v : JVal) (k : String) : Except PyErr JVal :=
  match v with
  | .obj fs => .ok ((dictGet fs k).getD .null)
  | _ => .error .attributeError

/-- Python `v[k]` with a string key: KeyError on a dict without the key,
TypeError on every non-dict receiver. -/
def pyGetItem (v : JVal) (k : String) : Except PyErr JVal :=
  match v with
  | .obj fs =>
    match dictGet fs k with
    | some x => .ok x
    | none => .error (.keyError k)
  | _ => .error .typeError

/-- `User.jwt_payload` (lines 73-82): None for a falsy token; otherwise
split on the dot, take segment 1 (IndexError when absent), pad with `=`
to a multiple of four, standard-alphabet base64-decode, JSON-parse.
A non-string truthy token has no `split`: AttributeError. -/
def jwt_payload (access : JVal) : Except PyErr (Option JVal) :=
  if !pyTruthy access then .ok none
  else
    match access with
    | .str s =>
      match (pySplit s '.').get? 1 with
      | none => .error .indexError
      | some seg =>
        let missing_padding := seg.length % 4
        let padded :=
          if missing_padding = 0 then seg
          else seg ++ String.mk (List.replicate (4 - missing_padding) '=')
        match b64decode padded with
        | none => .error .b64Error
        | some bs =>
          match json_loads (bytesToStr bs) with
          | some payload => .ok (some payload)
          | none => .error .jsonError
    | _ => .error .attributeError

/-- `User.token_exp_time` (lines 84-95): None when there is no payload;
raises when the `exp` claim is falsy (absent, None, or zero); otherwise
`utcfromtimestamp(exp) - utcnow()` in whole seconds, which is `exp - now`
(TypeError when `exp` is not a number). -/
def token_exp_time (now : Int) (access : JVal) : Except PyErr (Option Int) :=
  match jwt_payload access with
  | .error e => .error e
  | .ok none => .ok none
  | .ok (some payload) =>
    match pyGet payload "exp" with
    | .error e => .error e
    | .ok exp_timestamp =>
      if !pyTruthy exp_timestamp then .error .missingExp
      else
        match exp_timestamp with
        | .num n => .ok (some (n - now))
        | _ => .error .typeError

/-- The guard `exp_time and exp_time > time_remaining` of line 149:
Python truthiness of the float, then the comparison. -/
def freshCheck (exp_time : Option Int) (time_remaining : Int) : Bool :=
  match exp_time with
  | some t => t != 0 && decide (time_remaining < t)
  | none => false

/-! ### The request dispatcher (`User.request`, lines 175-224)

`request` first runs the transparent refresh unless the path targets an
auth endpoint, then performs the dispatch proper (URL resolution, body
encoding, header construction, the network call, response parsing and
caching). The dispatch proper is `requestCore` below; the auth methods
reach it through `request`, whose `/auth-jwt/` guard makes the refresh
step a statically skipped no-op on their paths. -/

/-- Lines 183-188: resolve the full URL and append the encoded query
string when params are truthy (and the encoding is itself truthy). -/
def resolveUrl (host_url url : String) (params : Option (List (String × String))) : String :=
  let url := geturl host_url url
  let url_params : Option String :=
    match params with
    | some ps => if ps.isEmpty then none else some (urlencode ps)
    | none => none
  match url_params with
  | some s => if !s.data.isEmpty then url ++ "?" ++ s else url
  | none => url

/-- Line 191: `method in ('POST', 'PUT', 'PATCH') and not sendRaw`. -/
def cacheResponseFlag (method : String) (sendRaw : Bool) : Bool :=
  (["POST", "PUT", "PATCH"].contains method) && !sendRaw

/-- Lines 190-203: JSON-encode the body for mutating non-raw requests
(json.dumps succeeds on every JVal, so the bare `except: pass` fallback
for unserialisable objects is unreachable here), pass other data through
raw (None means no body), and always drop the body of a GET. -/
def buildBody (method : String) (data : JVal) (sendRaw : Bool) : Option (String ⊕ JVal) :=
  let body : Option (String ⊕ JVal) :=
    if cacheResponseFlag method sendRaw then some (.inl (json_dumps data))
    else
      match data with
      | .null => none
      | d => some (.inr d)
  if method = "GET" then none else body

/-- Line 206: the urllib2 Request object handed to urlopen. -/
def buildCall (w : World) (u : User) (method url : String) (data : JVal)
    (params : Option (List (String × String)))
    (extra_headers : Option (List (String × String))) (sendRaw : Bool) : HttpCall :=
  ⟨resolveUrl u.host_url url params, method, buildBody method data sendRaw,
   (headers w u extra_headers).2⟩

/-- `User.set_cached_response` (lines 163-165). -/
def set_cached_response (w : World) (method url : String) (data : JVal) : World :=
  { w with cache := dictSet w.cache (method, url) data }

/-- `User.get_cached_response` (lines 167-169): resolves host plus path
only - it takes no params and appends no query string. -/
def get_cached_response (w : World) (u : User) (method url : String) : Option JVal :=
  let url := geturl u.host_url url
  dictGet w.cache (method, url)

/-- Lines 213-224: parse the response text as JSON with a raw-string
fallback, cache the envelope for mutating non-raw calls, return it. -/
def requestFinish (w : World) (method url : String) (cache_response : Bool)
    (response : String) : World × Except PyErr JVal :=
  let response_data : JVal :=
    match json_loads response with
    | some j => j
    | none => .str response
  let w := if cache_response then set_cached_response w method url response_data else w
  (w, .ok response_data)

/-- Lines 182-224 of `User.request`: the dispatch proper, after the
refresh guard. On urlopen success the body is used; on an HTTPError the
handler prints `err.code` and uses `err.reason` as the response text; on
a plain URLError the very `print(err.code, err)` raises AttributeError,
because URLError has no `code` attribute. -/
def requestCore (net : HttpCall → NetResult) (w : World) (u : User)
    (method url : String) (data : JVal) (params : Option (List (String × String)))
    (extra_headers : Option (List (String × String))) (sendRaw : Bool) :
    World × Except PyErr JVal :=
  let fullUrl := resolveUrl u.host_url url params
  let cache_response := cacheResponseFlag method sendRaw
  let r := buildCall w u method url data params extra_headers sendRaw
  let w := (headers w u extra_headers).1
  let w := { w with trace := w.trace ++ [r] }
  match net r with
  | .urlError _reason => (w, .error .attributeError)
  | .success body => requestFinish w method fullUrl cache_response body
  | .httpError _code reason => requestFinish w method fullUrl cache_response reason

/-- `User.refresh_token` (lines 143-156): no-op without a refresh token;
fast path when the current token is truthy-fresh; otherwise POST to the
refresh endpoint (an `/auth-jwt/` path, so `request` reduces to the
dispatch proper) and store the response's `access` item. The closing
print evaluates `self.token_exp_time` on the new token and can raise. -/
def refresh_token (net : HttpCall → NetResult) (now : Int) (w : World) (u : User)
    (time_remaining : Int) : World × User × Except PyErr JVal :=
  if !pyTruthy u._refresh_token then (w, u, .ok .null)
  else
    match token_exp_time now u._access_token with
    | .error e => (w, u, .error e)
    | .ok exp_time =>
      if freshCheck exp_time time_remaining then (w, u, .ok (token u))
      else
        match requestCore net w u "POST" "/auth-jwt/refresh/"
            (.obj [("refresh", u._refresh_token)]) none none false with
        | (w, .error e) => (w, u, .error e)
        | (w, .ok response_dict) =>
          match pyGetItem response_dict "access" with
          | .error e => (w, u, .error e)
          | .ok v =>
            let u := { u with _access_token := v }
            match token_exp_time now u._access_token with
            | .error e => (w, u, .error e)
            | .ok _ => (w, u, .ok (token u))

/-- `User.request` (lines 175-224): transparent refresh (with the default
`time_remaining = 20`) unless the path targets an auth endpoint, then the
dispatch proper. -/
def request (net : HttpCall → NetResult) (now : Int) (w : World) (u : User)
    (method url : String) (data : JVal) (params : Option (List (String × String)))
    (extra_headers : Option (List (String × String))) (sendRaw : Bool) :
    World × User × Except PyErr JVal :=
  if !pyStartsWith url "/auth-jwt/" then
    match refresh_token net now w u 20 with
    | (w, u, .error e) => (w, u, .error e)
    | (w, u, .ok _) =>
      let res := requestCore net w u method url data params extra_headers sendRaw
      (res.1, u, res.2)
  else
    let res := requestCore net w u method url data params extra_headers sendRaw
    (res.1, u, res.2)

/-- `User.get_token` (lines 132-141): clear the pair, POST the
credentials, store `response.get('access')` and `response.get('refresh')`
BEFORE the validation loop, then raise when either field is None; the
closing print evaluates `self.token_exp_time`. -/
def get_token (net : HttpCall → NetResult) (now : Int) (w : World) (u : User) :
    World × User × Except PyErr JVal :=
  let u := clear_tokens u
  match request net now w u "POST" "/auth-jwt/get/"
      (.obj [("username", .str u.username), ("password", .str u.password)])
      none none false with
  | (w, u, .error e) => (w, u, .error e)
  | (w, u, .ok response_dict) =>
    match pyGet response_dict "access" with
    | .error e => (w, u, .error e)
    | .ok av =>
      let u := { u with _access_token := av }
      match pyGet response_dict "refresh" with
      | .error e => (w, u, .error e)
      | .ok rv =>
        let u := { u with _refresh_token := rv }
        match pyGet response_dict "access" with
        | .error e => (w, u, .error e)
        | .ok a2 =>
          if pyIsNone a2 then (w, u, .error .authError)
          else
            match pyGet response_dict "refresh" with
            | .error e => (w, u, .error e)
            | .ok r2 =>
              if pyIsNone r2 then (w, u, .error .authError)
              else
                match token_exp_time now u._access_token with
                | .error e => (w, u, .error e)
                | .ok _ => (w, u, .ok (token u))

/-- `User.verify_token` (lines 158-161): POST the current access token to
the verify endpoint and store the response's `access` item. -/
def verify_token (net : HttpCall → NetResult) (now : Int) (w : World) (u : User) :
    World × User × Except PyErr JVal :=
  match request net now w u "POST" "/auth-jwt/verify/"
      (.obj [("token", token u)]) none none false with
  | (w, u, .error e) => (w, u, .error e)
  | (w, u, .ok response_dict) =>
    match pyGetItem response_dict "access" with
    | .error e => (w, u, .error e)
    | .ok v =>
      let u := { u with _access_token := v }
      (w, u, .ok (token u))

/-! ### Spec-modelled reference decoder (for the claim about base64url) -/

/-- A character of the base64url alphabet. -/
def isUrlsafeB64Char (c : Char) : Bool :=
  c.isAlpha || c.isDigit || c = '-' || c = '_'

/-- Modelled from the spec: section 4.1 says `decodePayload` applies
base64URL decoding to segment 1 after padding it with `=` to a multiple
of four. This reference decoder maps the two urlsafe characters onto the
standard alphabet before decoding, as base64url requires; it exists only
to be compared with `jwt_payload`, which the source builds on the
standard-alphabet `base64.b64decode`. -/
def decodePayloadSpec (accessToken : String) : Except PyErr (Option JVal) :=
  if accessToken.data.isEmpty then .ok none
  else
    match (pySplit accessToken '.').get? 1 with
    | none => .error .indexError
    | some seg =>
      let missing_padding := seg.length % 4
      let padded :=
        if missing_padding = 0 then seg
        else seg ++ String.mk (List.replicate (4 - missing_padding) '=')
      let translated :=
        String.mk (padded.toList.map
          (fun c => if c = '-' then '+' else if c = '_' then '/' else c))
      match b64decode translated with
      | none => .error .b64Error
      | some bs =>
        match json_loads (bytesToStr bs) with
        | some payload => .ok (some payload)
        | none => .error .jsonError

/-! ### Concrete fixtures used by witnesses and counterexamples -/

/-- A well-formed token whose payload is the object with exp 9999. -/
def tokGood : String := "x.eyJleHAiOjk5OTl9.y"

/-- A well-formed token whose payload is the object with exp 0. -/
def tokExp0 : String := "x.eyJleHAiOjB9.y"

/-- A well-formed base64url token: segment 1 decodes (urlsafe) to the
object mapping "a" to ">>>"; the segment contains the urlsafe dash. -/
def tokUrlsafe : String := "h.eyJhIjoiPj4-In0.s"

def uAlice : User := userInit "alice" "pw" "http://h"

def uBob : User := userInit "bob" "pw2" "http://h2"

/-- A session holding a refresh token and no access token. -/
def uRef : User := { uAlice with _refresh_token := .str "r" }

/-- A session holding a valid access token. -/
def uTok : User := { uAlice with _access_token := .str tokGood }

/-- A server whose every answer is a refresh payload carrying tokGood. -/
def netRefreshGood : HttpCall → NetResult :=
  fun _ => .success (json_dumps (.obj [("access", .str tokGood)]))

/-- A server answering the JSON string "r" to everything. -/
def netEcho : HttpCall → NetResult := fun _ => .success (json_dumps (.str "r"))

/-- A server answering the non-JSON text "ok" to everything. -/
def netPlain : HttpCall → NetResult := fun _ => .success "ok"

/-- A dead server: every call fails at the transport level (a URLError
with no status code). -/
def netDown : HttpCall → NetResult := fun _ => .urlError "connection refused"

/-- A server answering 500 with reason text "boom" to everything. -/
def netFail500 : HttpCall → NetResult := fun _ => .httpError 500 "boom"

/-- A server answering the non-JSON text "oops" to everything. -/
def netOops : HttpCall → NetResult := fun _ => .success "oops"

/-- A login server whose response carries access but no refresh field. -/
def netNoRefresh : HttpCall → NetResult :=
  fun _ => .success (json_dumps (.obj [("access", .str "abc")]))

/-! ### Lemmas about the dict model -/

theorem dictGet_dictSet_self {κ α : Type} [DecidableEq κ]
    (d : List (κ × α)) (k : κ) (v : α) : dictGet (dictSet d k v) k = some v := by
  induction d with
  | nil => simp [dictSet, dictGet]
  | cons hd tl ih =>
    rcases hd with ⟨k0, v0⟩
    by_cases h : k0 = k
    · simp [dictSet, h, dictGet]
    · simp [dictSet, h, dictGet, ih]

theorem dictGet_dictSet_ne {κ α : Type} [DecidableEq κ]
    (d : List (κ × α)) (k k' : κ) (v : α) (h : k' ≠ k) :
    dictGet (dictSet d k v) k' = dictGet d k' := by
  induction d with
  | nil => simp [dictSet, dictGet, Ne.symm h]
  | cons hd tl ih =>
    rcases hd with ⟨k0, v0⟩
    simp only [dictSet]
    by_cases h0 : k0 = k
    · subst h0
      simp [dictGet, Ne.symm h]
    · simp [dictGet, h0, ih]

theorem dictGet_eq_none {κ α : Type} [DecidableEq κ]
    (d : List (κ × α)) (k : κ) (h : k ∉ d.map Prod.fst) : dictGet d k = none := by
  induction d with
  | nil => rfl
  | cons hd tl ih =>
    rcases hd with ⟨k0, v0⟩
    simp only [List.map_cons, List.mem_cons] at h
    push_neg at h
    simp [dictGet, Ne.symm h.1, ih h.2]

theorem dictGet_dictUpdate_none {κ α : Type} [DecidableEq κ]
    (e d : List (κ × α)) (k : κ) (h : dictGet e k = none) :
    dictGet (dictUpdate d e) k = dictGet d k := by
  induction e generalizing d with
  | nil => simp [dictUpdate]
  | cons hd tl ih =>
    rcases hd with ⟨k0, v0⟩
    simp only [dictGet] at h
    by_cases h0 : k0 = k
    · simp [h0] at h
    · simp only [h0, if_false] at h
      have := ih (dictSet d k0 v0) h
      simp only [dictUpdate, List.foldl] at this ⊢
      rw [this, dictGet_dictSet_ne _ _ _ _ (fun hh => h0 hh.symm)]

theorem dictGet_dictUpdate_some {κ α : Type} [DecidableEq κ]
    (e : List (κ × α)) (k : κ) (v : α)
    (hnd : (e.map Prod.fst).Nodup) (h : dictGet e k = some v) :
    ∀ d : List (κ × α), dictGet (dictUpdate d e) k = some v := by
  induction e with
  | nil => simp [dictGet] at h
  | cons hd tl ih =>
    rcases hd with ⟨k0, v0⟩
    simp only [List.map_cons, List.nodup_cons] at hnd
    intro d
    by_cases h0 : k0 = k
    · subst h0
      have hv : v0 = v := by simpa [dictGet] using h
      subst hv
      have htl : dictGet tl k0 = none := dictGet_eq_none tl k0 hnd.1
      simp only [dictUpdate, List.foldl]
      have hn := dictGet_dictUpdate_none tl (dictSet d k0 v0) k0 htl
      simp only [dictUpdate] at hn
      rw [hn, dictGet_dictSet_self]
    · have h' : dictGet tl k = some v := by simpa [dictGet, h0] using h
      have := ih hnd.2 h' (dictSet d k0 v0)
      simp only [dictUpdate, List.foldl] at this ⊢
      exact this

/-! ### Helper lemmas about the dispatcher -/

/-- Every dispatch records exactly one network call, the request object
it was built from. -/
theorem requestCore_trace (net : HttpCall → NetResult) (w : World) (u : User)
    (method url : String) (data : JVal) (params : Option (List (String × String)))
    (eh : Option (List (String × String))) (sendRaw : Bool) :
    ((requestCore net w u method url data params eh sendRaw).1).trace =
      w.trace ++ [buildCall w u method url data params eh sendRaw] := by
  simp only [requestCore]
  cases hnet : net (buildCall w u method url data params eh sendRaw) with
  | success b =>
    simp only [requestFinish, set_cached_response]
    split <;> rfl
  | httpError c r =>
    simp only [requestFinish, set_cached_response]
    split <;> rfl
  | urlError r => rfl

/-- A dispatch whose cache flag is set and which returns an envelope has
stored that envelope under (method, resolved URL). -/
theorem requestCore_cached (net : HttpCall → NetResult) (w : World) (u : User)
    (method url : String) (data : JVal) (params : Option (List (String × String)))
    (eh : Option (List (String × String))) (sendRaw : Bool) (w' : World) (env : JVal)
    (hflag : cacheResponseFlag method sendRaw = true)
    (h : requestCore net w u method url data params eh sendRaw = (w', .ok env)) :
    dictGet w'.cache (method, resolveUrl u.host_url url params) = some env := by
  simp only [requestCore] at h
  cases hnet : net (buildCall w u method url data params eh sendRaw) with
  | success b =>
    rw [hnet] at h
    simp only [requestFinish, set_cached_response, hflag, if_true] at h
    injection h with h1 h2
    injection h2 with h2
    rw [← h1, ← h2]
    exact dictGet_dictSet_self _ _ _
  | httpError c r =>
    rw [hnet] at h
    simp only [requestFinish, set_cached_response, hflag, if_true] at h
    injection h with h1 h2
    injection h2 with h2
    rw [← h1, ← h2]
    exact dictGet_dictSet_self _ _ _
  | urlError r =>
    rw [hnet] at h
    injection h with h1 h2
    simp at h2

/-- A dispatch never touches cache entries of a different method. -/
theorem requestCore_cache_other (net : HttpCall → NetResult) (w : World) (u : User)
    (method url : String) (data : JVal) (params : Option (List (String × String)))
    (eh : Option (List (String × String))) (sendRaw : Bool)
    (m' url' : String) (hm : m' ≠ method) :
    dictGet ((requestCore net w u method url data params eh sendRaw).1).cache (m', url') =
      dictGet w.cache (m', url') := by
  simp only [requestCore]
  have hkey : ((m', url') : String × String) ≠ (method, resolveUrl u.host_url url params) := by
    intro hk
    exact hm (congrArg Prod.fst hk)
  cases hnet : net (buildCall w u method url data params eh sendRaw) with
  | success b =>
    simp only [requestFinish, set_cached_response]
    split
    · exact dictGet_dictSet_ne _ _ _ _ hkey
    · rfl
  | httpError c r =>
    simp only [requestFinish, set_cached_response]
    split
    · exact dictGet_dictSet_ne _ _ _ _ hkey
    · rfl
  | urlError r => rfl

/-- A dispatch whose cache flag is off leaves the cache untouched. -/
theorem requestCore_cache_noflag (net : HttpCall → NetResult) (w : World) (u : User)
    (method url : String) (data : JVal) (params : Option (List (String × String)))
    (eh : Option (List (String × String))) (sendRaw : Bool)
    (hflag : cacheResponseFlag method sendRaw = false) :
    ((requestCore net w u method url data params eh sendRaw).1).cache = w.cache := by
  simp only [requestCore]
  cases hnet : net (buildCall w u method url data params eh sendRaw) with
  | success b =>
    simp only [requestFinish, hflag]
    rfl
  | httpError c r =>
    simp only [requestFinish, hflag]
    rfl
  | urlError r => rfl

/-- The transparent refresh touches at most the (POST, refresh URL) cache
entry: every key of a different method is preserved. -/
theorem refresh_token_cache_other (net : HttpCall → NetResult) (now : Int)
    (w : World) (u : User) (tr : Int) (m' url' : String) (hm : m' ≠ "POST") :
    dictGet ((refresh_token net now w u tr).1).cache (m', url') =
      dictGet w.cache (m', url') := by
  simp only [refresh_token]
  split
  · rfl
  · split
    · rfl
    · split
      · rfl
      · split
        · rename_i w1 e hreq
          have := requestCore_cache_other net w u "POST" "/auth-jwt/refresh/"
            (.obj [("refresh", u._refresh_token)]) none none false m' url' hm
          rw [hreq] at this
          exact this
        · rename_i w1 rd hreq
          have := requestCore_cache_other net w u "POST" "/auth-jwt/refresh/"
            (.obj [("refresh", u._refresh_token)]) none none false m' url' hm
          rw [hreq] at this
          split
          · exact this
          · split
            · exact this
            · exact this


/-! ### The claims -/

/-- Claim C9: for every session that holds no refresh token, ensureFresh
returns None without attempting any network call (the state, including
the call trace, is untouched), regardless of the access-token state and
of the threshold. -/
theorem claim9_noRefreshToken (net : HttpCall → NetResult) (now : Int) (w : World)
    (u : User) (tr : Int) (hr : pyTruthy u._refresh_token = false) :
    refresh_token net now w u tr = (w, u, .ok .null) := by
  simp [refresh_token, hr]

/-- Witness for C9: a freshly constructed session, arbitrary server. -/
theorem claim9_witness :
    refresh_token netPlain 0 initialWorld uAlice 20 = (initialWorld, uAlice, .ok .null) :=
  claim9_noRefreshToken netPlain 0 initialWorld uAlice 20 rfl

/-- Counterexample to claim C2 as stated: the token tokExp0 decodes to a
payload that DOES contain the exp claim (with value 0), yet
token_exp_time raises instead of returning 0 minus the current time. -/
theorem claim2_counterexample :
    jwt_payload (.str tokExp0) = .ok (some (.obj [("exp", .num 0)])) ∧
    token_exp_time 100 (.str tokExp0) = .error .missingExp :=
  ⟨rfl, rfl⟩

/-- Claim C2 as amended: remainingSeconds is None for a falsy access
token; when the decoded payload carries a nonzero numeric exp it returns
exp minus now; and it raises the missing-claim error when exp is absent
OR present but falsy (the code tests truthiness, not presence). -/
theorem claim2_amended (now : Int) (access : JVal) :
    (pyTruthy access = false → token_exp_time now access = .ok none) ∧
    (∀ fs, jwt_payload access = .ok (some (.obj fs)) →
      (∀ n : Int, dictGet fs "exp" = some (.num n) → n ≠ 0 →
        token_exp_time now access = .ok (some (n - now))) ∧
      (dictGet fs "exp" = none → token_exp_time now access = .error .missingExp) ∧
      (∀ v, dictGet fs "exp" = some v → pyTruthy v = false →
        token_exp_time now access = .error .missingExp)) := by
  constructor
  · intro h
    simp [token_exp_time, jwt_payload, h]
  · intro fs hp
    refine ⟨?_, ?_, ?_⟩
    · intro n hn hne
      simp [token_exp_time, hp, pyGet, hn, pyTruthy, hne]
    · intro hn
      simp [token_exp_time, hp, pyGet, hn, pyTruthy]
    · intro v hv htr
      simp [token_exp_time, hp, pyGet, hv, htr]

/-- Witness for C2 as amended: a token with exp 9999 at time 5, and an
empty access token. -/
theorem claim2_witness :
    token_exp_time 5 (.str tokGood) = .ok (some 9994) ∧
    token_exp_time 5 (.str "") = .ok none := by
  refine ⟨?_, (claim2_amended 5 (.str "")).1 rfl⟩
  exact ((claim2_amended 5 (.str tokGood)).2 [("exp", .num 9999)] rfl).1 9999 rfl (by decide)

/-- Claim C7, evidence of the code bug: tokUrlsafe is a well-formed
access token (three dot-separated segments, payload segment drawn from
the base64url alphabet, urlsafe-decoding to a JSON object), yet
jwt_payload fails with the base64 padding error because the source feeds
the segment to the standard-alphabet decoder, which discards the urlsafe
dash. The spec-modelled reference decoder succeeds on the same token. -/
theorem claim7_code_bug :
    ("eyJhIjoiPj4-In0".toList.all isUrlsafeB64Char) = true ∧
    jwt_payload (.str tokUrlsafe) = .error .b64Error ∧
    decodePayloadSpec tokUrlsafe = .ok (some (.obj [("a", .str ">>>")])) :=
  ⟨rfl, rfl, rfl⟩

/-- Counterexample to claim C5 as stated: a transport-level failure (a
URLError with no status code) is not captured into the envelope; the
dispatch raises AttributeError to the caller, from the handler printing
err.code. -/
theorem claim5_counterexample :
    (request netDown 0 initialWorld uAlice "GET" "/api/x" .null none none false).2.2 =
      .error .attributeError :=
  rfl

/-- Claim C5 as amended: an HTTP-level failure (the error carries a
status code) is captured as data - the envelope is the reason text,
JSON-parsed when possible, with no httpStatus stored (the status is only
printed) - and no exception reaches the caller; a transport failure
without a status code instead raises AttributeError from the dispatch. -/
theorem claim5_amended (net : HttpCall → NetResult) (w : World) (u : User)
    (method url : String) (data : JVal) (params : Option (List (String × String)))
    (eh : Option (List (String × String))) (sendRaw : Bool) :
    (∀ code reason, net (buildCall w u method url data params eh sendRaw) = .httpError code reason →
      (requestCore net w u method url data params eh sendRaw).2 =
        .ok (match json_loads reason with | some j => j | none => .str reason)) ∧
    (∀ reason, net (buildCall w u method url data params eh sendRaw) = .urlError reason →
      (requestCore net w u method url data params eh sendRaw).2 = .error .attributeError) := by
  constructor
  · intro code reason hnet
    simp only [requestCore, hnet, requestFinish]
  · intro reason hnet
    simp only [requestCore, hnet]

/-- Witness for C5 as amended: a 500 response with unparseable reason
text becomes a raw-string envelope, not an exception. -/
theorem claim5_witness :
    (requestCore netFail500 initialWorld uAlice "GET" "/api/x" .null none none false).2 =
      .ok (.str "boom") := by
  exact (claim5_amended netFail500 initialWorld uAlice "GET" "/api/x" .null none none false).1
    500 "boom" rfl


/-- Claim C1: for every session holding a non-empty (truthy) refresh
token, ensureFresh with the default threshold 20 (a) makes no network
call and returns the current access token unchanged when the remaining
seconds are present and greater than 20 (the state, including the call
trace, is untouched), and (b) otherwise - remaining seconds at most 20,
zero, or absent because the access token is empty - performs exactly one
dispatch, a POST to the refresh endpoint carrying the refresh token,
and replaces the stored access token with the response access field
while leaving the refresh token unchanged. -/
theorem claim1_ensureFresh (net : HttpCall → NetResult) (now : Int) (w : World)
    (u : User) (hr : pyTruthy u._refresh_token = true) :
    (∀ t : Int, token_exp_time now u._access_token = .ok (some t) → 20 < t →
      refresh_token net now w u 20 = (w, u, .ok (token u))) ∧
    (∀ et, token_exp_time now u._access_token = .ok et → freshCheck et 20 = false →
      ∀ w1 env newTok r,
        requestCore net w u "POST" "/auth-jwt/refresh/"
            (.obj [("refresh", u._refresh_token)]) none none false = (w1, .ok env) →
        pyGetItem env "access" = .ok newTok →
        token_exp_time now newTok = .ok r →
        refresh_token net now w u 20 = (w1, { u with _access_token := newTok }, .ok newTok) ∧
        w1.trace = w.trace ++ [buildCall w u "POST" "/auth-jwt/refresh/"
            (.obj [("refresh", u._refresh_token)]) none none false]) := by
  constructor
  · intro t h1 h2
    have hc : freshCheck (some t) 20 = true := by
      simp only [freshCheck, Bool.and_eq_true, bne_iff_ne, ne_eq, decide_eq_true_eq]
      exact ⟨by omega, h2⟩
    simp [refresh_token, hr, h1, hc]
  · intro et h1 h2 w1 env newTok r hreq hget hexp
    have htr := requestCore_trace net w u "POST" "/auth-jwt/refresh/"
      (.obj [("refresh", u._refresh_token)]) none none false
    rw [hreq] at htr
    refine ⟨?_, htr⟩
    simp [refresh_token, hr, h1, h2, hreq, hget, hexp, token]

/-- Witness for C1 at a concrete session: empty access token (so the
remaining time is absent), refresh token "r", a server answering with a
fresh JWT; the refresh happens, the access token is replaced, and the
trace gains exactly the one refresh call. -/
theorem claim1_witness :
    refresh_token netRefreshGood 0 initialWorld uRef 20 =
      ((requestCore netRefreshGood initialWorld uRef "POST" "/auth-jwt/refresh/"
          (.obj [("refresh", JVal.str "r")]) none none false).1,
        { uRef with _access_token := .str tokGood }, .ok (.str tokGood)) ∧
    ((requestCore netRefreshGood initialWorld uRef "POST" "/auth-jwt/refresh/"
        (.obj [("refresh", JVal.str "r")]) none none false).1).trace =
      initialWorld.trace ++ [buildCall initialWorld uRef "POST" "/auth-jwt/refresh/"
        (.obj [("refresh", JVal.str "r")]) none none false] := by
  exact (claim1_ensureFresh netRefreshGood 0 initialWorld uRef rfl).2 none rfl rfl
    (requestCore netRefreshGood initialWorld uRef "POST" "/auth-jwt/refresh/"
        (.obj [("refresh", JVal.str "r")]) none none false).1
    (JVal.obj [("access", JVal.str tokGood)]) (JVal.str tokGood) (some 9999) rfl rfl rfl

/-- Claim C10: when a refresh or verify call gets back an envelope that
is not a mapping containing the access key, subscripting the envelope
raises (KeyError or TypeError), the error escapes uncaught, and the
session token pair is left exactly as it was. -/
theorem claim10_badEnvelope (net : HttpCall → NetResult) (now : Int) (w : World) (u : User) :
    (∀ et w1 env e,
      pyTruthy u._refresh_token = true →
      token_exp_time now u._access_token = .ok et →
      freshCheck et 20 = false →
      requestCore net w u "POST" "/auth-jwt/refresh/"
          (.obj [("refresh", u._refresh_token)]) none none false = (w1, .ok env) →
      pyGetItem env "access" = .error e →
      refresh_token net now w u 20 = (w1, u, .error e)) ∧
    (∀ w1 u1 env e,
      request net now w u "POST" "/auth-jwt/verify/" (.obj [("token", token u)])
          none none false = (w1, u1, .ok env) →
      pyGetItem env "access" = .error e →
      verify_token net now w u = (w1, u1, .error e) ∧ u1 = u) := by
  constructor
  · intro et w1 env e hr h1 h2 hreq hget
    simp [refresh_token, hr, h1, h2, hreq, hget]
  · intro w1 u1 env e hreq hget
    have hu : u1 = u := by
      have h2 := hreq
      simp only [request, show pyStartsWith "/auth-jwt/verify/" "/auth-jwt/" = true from rfl,
        Bool.not_true, Bool.false_eq_true, if_false] at h2
      injection h2 with ha hb
      injection hb with hb1 hb2
      exact hb1.symm
    refine ⟨?_, hu⟩
    simp only [verify_token]
    rw [hreq]
    simp [hget]

/-- Witness for C10 at a concrete session and a server answering the
non-JSON text "oops": the refresh path and the verify path both raise
TypeError (string envelope subscripted) and leave the tokens unchanged. -/
theorem claim10_witness :
    refresh_token netOops 0 initialWorld uRef 20 =
      ((requestCore netOops initialWorld uRef "POST" "/auth-jwt/refresh/"
          (.obj [("refresh", JVal.str "r")]) none none false).1, uRef, .error .typeError) ∧
    verify_token netOops 0 initialWorld uAlice =
      ((request netOops 0 initialWorld uAlice "POST" "/auth-jwt/verify/"
          (.obj [("token", token uAlice)]) none none false).1, uAlice, .error .typeError) := by
  constructor
  · exact (claim10_badEnvelope netOops 0 initialWorld uRef).1 none
      (requestCore netOops initialWorld uRef "POST" "/auth-jwt/refresh/"
          (.obj [("refresh", JVal.str "r")]) none none false).1
      (JVal.str "oops") .typeError rfl rfl rfl rfl rfl
  · exact ((claim10_badEnvelope netOops 0 initialWorld uAlice).2
      (request netOops 0 initialWorld uAlice "POST" "/auth-jwt/verify/"
          (.obj [("token", token uAlice)]) none none false).1
      uAlice (JVal.str "oops") .typeError rfl rfl).1


/-- The lookup that `get_cached_response` performs finds the envelope a
cache-flagged dispatch just stored, when the send carried no params. -/
theorem requestCore_lookup (net : HttpCall → NetResult) (w : World) (u : User)
    (method path : String) (data : JVal) (eh : Option (List (String × String)))
    (hflag : cacheResponseFlag method false = true) (w' : World) (env : JVal)
    (h : requestCore net w u method path data none eh false = (w', .ok env)) :
    get_cached_response w' u method path = some env := by
  have hc := requestCore_cached net w u method path data none eh false w' env hflag h
  simpa [get_cached_response, resolveUrl, geturl] using hc

/-- Counterexample to claim C3 as stated: with query params the send
stores the envelope under the URL with the query string appended, but
the cache-only lookup resolves host plus path alone (it takes no
params), so the stored envelope is not found: the send returned an
envelope and the cached read returns nothing. -/
theorem claim3_counterexample :
    (request netEcho 0 initialWorld uAlice "POST" "/api/x" (.str "d")
        (some [("a", "1")]) none false).2.2 = .ok (.str "r") ∧
    get_cached_response
      (request netEcho 0 initialWorld uAlice "POST" "/api/x" (.str "d")
          (some [("a", "1")]) none false).1
      (request netEcho 0 initialWorld uAlice "POST" "/api/x" (.str "d")
          (some [("a", "1")]) none false).2.1
      "POST" "/api/x" = none :=
  ⟨rfl, rfl⟩

/-- Claim C3 as amended: for a mutating request dispatched WITHOUT query
params, sending and then reading the cache for the identical method and
path yields exactly the envelope the send returned, because both resolve
the same host-plus-path URL; with query params the keys differ and the
cached read misses. -/
theorem claim3_amended (net : HttpCall → NetResult) (now : Int) (w : World) (u : User)
    (method path : String) (data : JVal) (eh : Option (List (String × String)))
    (hm : method = "POST" ∨ method = "PUT" ∨ method = "PATCH")
    (w' : World) (u' : User) (env : JVal)
    (hreq : request net now w u method path data none eh false = (w', u', .ok env)) :
    get_cached_response w' u' method path = some env := by
  have hflag : cacheResponseFlag method false = true := by
    rcases hm with h | h | h <;> subst h <;> rfl
  by_cases hp : pyStartsWith path "/auth-jwt/"
  · simp only [request, hp, Bool.not_true, Bool.false_eq_true, if_false] at hreq
    injection hreq with ha hb
    injection hb with hb1 hb2
    subst hb1
    exact requestCore_lookup net w u method path data eh hflag w' env
      (by rw [← ha, ← hb2])
  · simp only [request, hp, Bool.not_false, if_true] at hreq
    rcases hrf : refresh_token net now w u 20 with ⟨w1, u1, r1⟩
    rw [hrf] at hreq
    cases r1 with
    | error e =>
      injection hreq with ha hb
      injection hb with hb1 hb2
      exact absurd hb2 (by simp)
    | ok v =>
      injection hreq with ha hb
      injection hb with hb1 hb2
      subst hb1
      exact requestCore_lookup net w1 u1 method path data eh hflag w' env
        (by rw [← ha, ← hb2])

/-- Witness for C3 as amended: a concrete POST without params followed by
the cache-only read returns the identical envelope. -/
theorem claim3_witness :
    get_cached_response
      (request netEcho 0 initialWorld uAlice "POST" "/api/x" (.str "d") none none false).1
      (request netEcho 0 initialWorld uAlice "POST" "/api/x" (.str "d") none none false).2.1
      "POST" "/api/x" = some (.str "r") := by
  exact claim3_amended netEcho 0 initialWorld uAlice "POST" "/api/x" (.str "d") none
    (Or.inl rfl)
    (request netEcho 0 initialWorld uAlice "POST" "/api/x" (.str "d") none none false).1
    (request netEcho 0 initialWorld uAlice "POST" "/api/x" (.str "d") none none false).2.1
    (.str "r") rfl

/-- Counterexample to claim C4 as stated: a mutating request dispatched
with rawBody true returns its envelope but stores nothing - the cache
stays empty, with no entry under the request key. -/
theorem claim4_counterexample :
    (request netPlain 0 initialWorld uAlice "PUT" "/api/u" (.str "bytes")
        none none true).2.2 = .ok (.str "ok") ∧
    (request netPlain 0 initialWorld uAlice "PUT" "/api/u" (.str "bytes")
        none none true).1.cache = [] :=
  ⟨rfl, rfl⟩

/-- Claim C4 as amended: (a) a POST, PUT or PATCH dispatched with
rawBody false stores the returned envelope under (method, resolved URL);
(b) a request of any non-mutating method stores nothing under its own
method, whatever rawBody is (the only insertion its dispatch can cause
is the nested refresh POST); (c) a dispatch with rawBody true leaves the
cache untouched whatever the method. -/
theorem claim4_amended (net : HttpCall → NetResult) (now : Int) (w : World) (u : User)
    (method path : String) (data : JVal) (params : Option (List (String × String)))
    (eh : Option (List (String × String))) :
    (∀ w' u' env, (method = "POST" ∨ method = "PUT" ∨ method = "PATCH") →
      request net now w u method path data params eh false = (w', u', .ok env) →
      dictGet w'.cache (method, resolveUrl u'.host_url path params) = some env) ∧
    (∀ sendRaw, (["POST", "PUT", "PATCH"] : List String).contains method = false →
      ∀ url', dictGet ((request net now w u method path data params eh sendRaw).1).cache
          (method, url') = dictGet w.cache (method, url')) ∧
    (∀ w0 u0, ((requestCore net w0 u0 method path data params eh true).1).cache = w0.cache) := by
  refine ⟨?_, ?_, ?_⟩
  · intro w' u' env hm hreq
    have hflag : cacheResponseFlag method false = true := by
      rcases hm with h | h | h <;> subst h <;> rfl
    by_cases hp : pyStartsWith path "/auth-jwt/"
    · simp only [request, hp, Bool.not_true, Bool.false_eq_true, if_false] at hreq
      injection hreq with ha hb
      injection hb with hb1 hb2
      subst hb1
      exact requestCore_cached net w u method path data params eh false w' env hflag
        (by rw [← ha, ← hb2])
    · simp only [request, hp, Bool.not_false, if_true] at hreq
      rcases hrf : refresh_token net now w u 20 with ⟨w1, u1, r1⟩
      rw [hrf] at hreq
      cases r1 with
      | error e =>
        injection hreq with ha hb
        injection hb with hb1 hb2
        exact absurd hb2 (by simp)
      | ok v =>
        injection hreq with ha hb
        injection hb with hb1 hb2
        subst hb1
        exact requestCore_cached net w1 u1 method path data params eh false w' env hflag
          (by rw [← ha, ← hb2])
  · intro sendRaw hcont url'
    have hflag : cacheResponseFlag method sendRaw = false := by
      unfold cacheResponseFlag
      rw [hcont]
      exact Bool.false_and _
    have hpost : method ≠ "POST" := by
      intro h
      subst h
      simp at hcont
    by_cases hp : pyStartsWith path "/auth-jwt/"
    · simp only [request, hp, Bool.not_true, Bool.false_eq_true, if_false]
      rw [requestCore_cache_noflag net w u method path data params eh sendRaw hflag]
    · simp only [request, hp, Bool.not_false, if_true]
      rcases hrf : refresh_token net now w u 20 with ⟨w1, u1, r1⟩
      have hrc := refresh_token_cache_other net now w u 20 method url' hpost
      rw [hrf] at hrc
      cases r1 with
      | error e => exact hrc
      | ok v =>
        rw [requestCore_cache_noflag net w1 u1 method path data params eh sendRaw hflag]
        exact hrc
  · intro w0 u0
    exact requestCore_cache_noflag net w0 u0 method path data params eh true
      (by simp [cacheResponseFlag])

/-- Witness for C4 as amended: a concrete POST with rawBody false is
found in the cache under its key; a concrete GET request stores nothing
under the GET method; a rawBody dispatch leaves the cache untouched. -/
theorem claim4_witness :
    dictGet (request netEcho 0 initialWorld uAlice "POST" "/api/x" (.str "d")
        none none false).1.cache
      ("POST", resolveUrl ((request netEcho 0 initialWorld uAlice "POST" "/api/x"
          (.str "d") none none false).2.1).host_url "/api/x" none) = some (.str "r") ∧
    dictGet (request netPlain 0 initialWorld uAlice "GET" "/api/x" .null
        none none false).1.cache ("GET", "http://h/api/x") = none ∧
    ((requestCore netPlain initialWorld uAlice "PUT" "/api/u" (.str "bytes")
        none none true).1).cache = initialWorld.cache := by
  refine ⟨?_, ?_, ?_⟩
  · exact (claim4_amended netEcho 0 initialWorld uAlice "POST" "/api/x" (.str "d")
        none none).1
      (request netEcho 0 initialWorld uAlice "POST" "/api/x" (.str "d") none none false).1
      (request netEcho 0 initialWorld uAlice "POST" "/api/x" (.str "d") none none false).2.1
      (.str "r") (Or.inl rfl) rfl
  · exact (claim4_amended netPlain 0 initialWorld uAlice "GET" "/api/x" .null
        none none).2.1 false rfl "http://h/api/x"
  · exact (claim4_amended netPlain 0 initialWorld uAlice "PUT" "/api/u" (.str "bytes")
        none none).2.2 initialWorld uAlice


/-- Counterexample to claim C6 as stated: a login response carrying only
the access field raises the auth error, but the session is NOT left with
an empty token pair - the access token from the response has already
been stored when the validation loop raises. -/
theorem claim6_counterexample :
    (get_token netNoRefresh 0 initialWorld uAlice).2.2 = .error .authError ∧
    ((get_token netNoRefresh 0 initialWorld uAlice).2.1)._access_token = .str "abc" :=
  ⟨rfl, rfl⟩

/-- Claim C6 as amended: when the login response is a mapping whose
access or refresh entry is missing or None, login raises AuthError, but
both token slots have already been assigned from the response before the
check: each holds the corresponding response field (None when absent), so
a present field is retained rather than cleared. -/
theorem claim6_amended (net : HttpCall → NetResult) (now : Int) (w : World) (u : User)
    (w1 : World) (u1 : User) (fs : List (String × JVal))
    (hreq : request net now w (clear_tokens u) "POST" "/auth-jwt/get/"
        (.obj [("username", .str (clear_tokens u).username),
               ("password", .str (clear_tokens u).password)]) none none false
      = (w1, u1, .ok (.obj fs)))
    (hmiss : (dictGet fs "access").getD .null = .null ∨
             (dictGet fs "refresh").getD .null = .null) :
    get_token net now w u =
      (w1, { u1 with _access_token := (dictGet fs "access").getD .null,
                     _refresh_token := (dictGet fs "refresh").getD .null },
        .error .authError) := by
  simp only [get_token]
  rw [hreq]
  rcases hmiss with h | h
  · simp [pyGet, h, pyIsNone]
  · cases hAv : pyIsNone ((dictGet fs "access").getD .null) with
    | true =>
      have hAv2 : (dictGet fs "access").getD .null = .null := by
        revert hAv
        cases (dictGet fs "access").getD JVal.null <;> simp [pyIsNone]
      simp [pyGet, h, hAv2, pyIsNone]
    | false => simp [pyGet, h, hAv, pyIsNone]

/-- Witness for C6 as amended: the concrete access-only login response;
the access token is retained, the refresh slot holds None, and the auth
error is raised. -/
theorem claim6_witness :
    get_token netNoRefresh 0 initialWorld uBob =
      ((request netNoRefresh 0 initialWorld (clear_tokens uBob) "POST" "/auth-jwt/get/"
          (.obj [("username", .str (clear_tokens uBob).username),
                 ("password", .str (clear_tokens uBob).password)]) none none false).1,
        { (request netNoRefresh 0 initialWorld (clear_tokens uBob) "POST" "/auth-jwt/get/"
            (.obj [("username", .str (clear_tokens uBob).username),
                   ("password", .str (clear_tokens uBob).password)]) none none false).2.1
          with _access_token := .str "abc", _refresh_token := .null },
        .error .authError) := by
  exact claim6_amended netNoRefresh 0 initialWorld uBob
    (request netNoRefresh 0 initialWorld (clear_tokens uBob) "POST" "/auth-jwt/get/"
        (.obj [("username", .str (clear_tokens uBob).username),
               ("password", .str (clear_tokens uBob).password)]) none none false).1
    (request netNoRefresh 0 initialWorld (clear_tokens uBob) "POST" "/auth-jwt/get/"
        (.obj [("username", .str (clear_tokens uBob).username),
               ("password", .str (clear_tokens uBob).password)]) none none false).2.1
    [("access", .str "abc")] rfl (Or.inr rfl)

/-- Counterexample to claim C8 as stated: extra headers supplied to one
request DO alter the headers of a later request - even of a different
session - because the header dict is the shared class-level dict mutated
in place: a second session building headers with no extra headers still
sees the first session's X-Extra entry. -/
theorem claim8_counterexample :
    dictGet (headers (headers initialWorld uAlice (some [("X-Extra", "1")])).1 uBob none).2
      "X-Extra" = some "1" :=
  rfl

/-- Claim C8 as amended: header construction starts from the shared
class-level dict (which begins as the content-type default but
accumulates entries), adds the JWT Authorization entry when the session
holds a truthy token, and merges the extra headers last so they win;
the resulting dict is stored back as the shared dict, so the extra
headers (and a previously added Authorization entry, kept even when the
token is gone) persist into every later request of every session. -/
theorem claim8_amended (w : World) (u : User) (extra : List (String × String))
    (hne : extra ≠ []) (hnd : (extra.map Prod.fst).Nodup) :
    ((headers w u (some extra)).1).content_header = (headers w u (some extra)).2 ∧
    (∀ k v, dictGet extra k = some v → dictGet (headers w u (some extra)).2 k = some v) ∧
    (∀ k, dictGet extra k = none → k ≠ "Authorization" →
      dictGet (headers w u (some extra)).2 k = dictGet w.content_header k) ∧
    (pyTruthy (token u) = true → dictGet extra "Authorization" = none →
      dictGet (headers w u (some extra)).2 "Authorization" =
        some ("JWT " ++ pyStr (token u))) ∧
    (pyTruthy (token u) = false → dictGet extra "Authorization" = none →
      dictGet (headers w u (some extra)).2 "Authorization" =
        dictGet w.content_header "Authorization") := by
  have hie : extra.isEmpty = false := by
    cases extra with
    | nil => exact absurd rfl hne
    | cons a l => rfl
  refine ⟨?_, ?_, ?_, ?_, ?_⟩
  · simp [headers, hie]
  · intro k v hv
    simp only [headers, hie, Bool.false_eq_true, if_false]
    exact dictGet_dictUpdate_some extra k v hnd hv _
  · intro k hk hkA
    simp only [headers, hie, Bool.false_eq_true, if_false]
    rw [dictGet_dictUpdate_none extra _ k hk]
    by_cases ht : pyTruthy (token u)
    · simp only [ht, if_true]
      exact dictGet_dictSet_ne _ _ _ _ hkA
    · simp only [ht, Bool.false_eq_true, if_false]
  · intro ht hA
    simp only [headers, hie, Bool.false_eq_true, if_false]
    rw [dictGet_dictUpdate_none extra _ _ hA]
    simp [ht, dictGet_dictSet_self]
  · intro ht hA
    simp only [headers, hie, Bool.false_eq_true, if_false]
    rw [dictGet_dictUpdate_none extra _ _ hA]
    simp only [ht, Bool.false_eq_true, if_false]

/-- Witness for C8 as amended at a concrete session with a valid token:
the extra header wins, the Authorization header carries the token, and
the result is stored back into the shared dict. -/
theorem claim8_witness :
    dictGet (headers initialWorld uTok (some [("X-Extra", "1")])).2 "X-Extra" = some "1" ∧
    dictGet (headers initialWorld uTok (some [("X-Extra", "1")])).2 "Authorization" =
      some ("JWT " ++ pyStr (token uTok)) ∧
    ((headers initialWorld uTok (some [("X-Extra", "1")])).1).content_header =
      (headers initialWorld uTok (some [("X-Extra", "1")])).2 := by
  have h := claim8_amended initialWorld uTok [("X-Extra", "1")] (by simp) (by simp)
  exact ⟨h.2.1 "X-Extra" "1" rfl, h.2.2.2.1 rfl rfl, h.1⟩

end Procedural
